import Mathlib

/-!
A verification development for the command-tree interpreter in `src/cmd.c`
(`parse_command`, `parse_simple`, `run_in_parallel`, `run_on_pipe`,
`doRedirection`, `shell_cd`, `shell_exit`).

Modelling conventions:
* The pointer-linked `word_t` chains of the source are represented as lists:
  a word's `next_part` pointer chain becomes a `List Segment` (the remaining
  concatenation segments), and a `next_word` parameter chain becomes a
  `List word_t`.  `NULL` pointers become `[]`/`none`.
* OS effects (fork, waitpid, pipe, open, dup2, close, execvp, chdir, setenv)
  are recorded in an explicit event trace; events of a forked child happen in
  the child's own process and are not part of the parent's trace.
* `exit(n)` in the current process is `Except.error n`; it propagates through
  every in-process evaluation step (control never returns) and is caught only
  at a fork boundary, where it becomes the child's exit code.
* An `Oracle` supplies the environment's choices: whether a `fork` succeeds,
  whether `execvp` finds the program image, the exit code of the external
  program, whether a child is killed by a fatal signal, and whether `chdir`
  succeeds.
* Raw wait statuses follow the C macros: `WIFEXITED(st) = (st & 0x7f) == 0`
  and `WEXITSTATUS(st) = (st >> 8) & 0xff`; a normal `exit(code)` produces the
  status `(code % 256) * 256`, a fatal signal produces a status in `1..127`.
-/

/-- One segment of a word chain: a literal string, or (when `expand` is set)
an environment-variable reference, as in the assignment's `word_t`. -/
structure Segment where
  string : String
  expand : Bool
deriving DecidableEq, Repr

/-- The source's `word_t`: `string`/`expand` are the node's own fields and
`next_part` is the (flattened) chain of further segments concatenated with no
separator.  The `next_word` sibling pointer of the source is represented by
placing words in a `List word_t` instead. -/
structure word_t where
  string : String
  expand : Bool
  next_part : List Segment
deriving DecidableEq, Repr

/-- The source's `io_flags` enumeration. -/
inductive IoFlags where
  | IO_REGULAR
  | IO_OUT_APPEND
  | IO_ERR_APPEND
deriving DecidableEq, Repr

/-- The source's `simple_command_t`: verb, parameter list (the `next_word`
chain of `params`), the three optional redirection targets and the io flags. -/
structure simple_command_t where
  verb : word_t
  params : List word_t
  in_ : Option word_t
  out : Option word_t
  err : Option word_t
  io_flags : IoFlags
deriving DecidableEq, Repr

/-- Operator tags of internal tree nodes (the source's `op_t` without
`OP_NONE`, which is represented by the leaf constructor of `command_t`). -/
inductive op_t where
  | OP_SEQUENTIAL
  | OP_PARALLEL
  | OP_CONDITIONAL_NZERO
  | OP_CONDITIONAL_ZERO
  | OP_PIPE
deriving DecidableEq, Repr

/-- The source's `command_t`: a leaf holds a simple command (`op == OP_NONE`
with `scmd`), an internal node holds an operator and two non-null children
(the spec's invariant for internal nodes).  The informational `level` and
`father` fields influence no behaviour and are not modelled. -/
inductive command_t where
  | simple (scmd : simple_command_t) : command_t
  | node (op : op_t) (cmd1 cmd2 : command_t) : command_t
deriving DecidableEq, Repr

/-- Open modes used by `doRedirection` in the source. -/
inductive OpenMode where
  | ReadOnly
  | TruncCreate
  | AppendCreate
deriving DecidableEq, Repr

/-- Observable OS actions of the process under consideration.  The blocks that
save the three standard descriptors with `dup` and later restore them with
`dup2`+`close` are abstracted into single `saveStdFds`/`restoreStdFds` events;
all other descriptor actions are recorded individually. -/
inductive Event where
  | openAt (fd : Nat) (path : String) (mode : OpenMode)
  | dup2Fd (oldfd newfd : Nat)
  | closeFd (fd : Nat)
  | saveStdFds
  | restoreStdFds
  | pipeCreate (rd wr : Nat)
  | forkChild (pid : Nat)
  | waitFor (pid : Nat) (status : Nat)
  | execvpCall (prog : String)
  | chdirCall (path : String) (ok : Bool)
  | setenvCall (name val : String)
deriving DecidableEq, Repr

/-- Per-process state: environment table, current working directory, and the
pid the OS would hand out at the next fork.  A forked child continues with a
copy of this state (copy-on-fork). -/
structure ShellState where
  env : List (String × String)
  cwd : String
  nextPid : Nat
deriving DecidableEq, Repr

/-- The environment's choices, resolving every OS nondeterminism the code can
observe: `forkOk pid` is whether the fork producing `pid` succeeds, `execOk`
whether `execvp` can load the image for a given argv, `execCode` the exit code
of the external program when it runs, `killedBy pid` an optional fatal signal
delivered to the child `pid`, and `validDir` whether `chdir` to a path
succeeds. -/
structure Oracle where
  forkOk : Nat → Bool
  execOk : List String → Bool
  execCode : List String → Nat
  killedBy : Nat → Option Nat
  validDir : String → Bool

/-- The C macro `WIFEXITED`: the low seven bits of the status are zero. -/
def WIFEXITED (status : Nat) : Bool := status % 128 == 0

/-- The C macro `WEXITSTATUS`: the second byte of the status. -/
def WEXITSTATUS (status : Nat) : Nat := status / 256 % 256

/-- The raw wait status produced by a child that called `exit code`. -/
def mkExitStatus (code : Nat) : Nat := code % 256 * 256

/-- The raw wait status produced by a child killed by a fatal signal; the
encoding forces the signal number into `1..127`, so `WIFEXITED` is false. -/
def mkSignaled (sig : Nat) : Nat := sig % 127 + 1

/-- The wait status the parent observes for child `pid` whose in-process
evaluation would end with `exit code`: the oracle may kill the child with a
signal first, otherwise the child exits normally with `code`. -/
def childWaitStatus (O : Oracle) (pid : Nat) (code : Nat) : Nat :=
  match O.killedBy pid with
  | some sig => mkSignaled sig
  | none => mkExitStatus code

/-- The integer a forked evaluator child passes to `exit`: the boolean result
of `parse_command` (as in `exit(status)` in the source's child branches), or
the code of an `exit`/`quit` that already terminated the child. -/
def exitCodeOf : Except Nat Bool → Nat
  | .ok b => if b then 1 else 0
  | .error st => st

/-- Lookup in the environment table (first binding wins). -/
def getEnvVal (env : List (String × String)) (name : String) : String :=
  match env with
  | [] => ""
  | (k, v) :: rest => if k == name then v else getEnvVal rest name

/-- Overwriting update of the environment table, as `setenv(name, value, 1)`. -/
def setEnv (env : List (String × String)) (name value : String) :
    List (String × String) :=
  match env with
  | [] => [(name, value)]
  | (k, v) :: rest =>
    if k == name then (k, value) :: rest else (k, v) :: setEnv rest name value

/-- Resolution of one segment: the literal text, or the current value of the
referenced environment variable (unset variables resolve to the empty
string). -/
def resolveSegment (env : List (String × String)) (sg : Segment) : String :=
  if sg.expand then getEnvVal env sg.string else sg.string

/-- Modelled from the spec: `get_word` (declared in `utils.h`, which is not
under `src/`) resolves a word chain into the single concatenated string, in
chain order; an empty chain resolves to the empty string.  Here it resolves
the flattened segment list of a chain suffix. -/
def get_word (parts : List Segment) (env : List (String × String)) : String :=
  match parts with
  | [] => ""
  | sg :: rest => resolveSegment env sg ++ get_word rest env

/-- Resolution of a whole word: its own segment followed by its chain. -/
def wordString (w : word_t) (env : List (String × String)) : String :=
  resolveSegment env ⟨w.string, w.expand⟩ ++ get_word w.next_part env

/-- Modelled from the spec: `get_argv` (declared in `utils.h`, which is not
under `src/`) builds the argument vector with the resolved verb as argument 0
followed by the resolved parameters in order. -/
def get_argv (s : simple_command_t) (env : List (String × String)) :
    List String :=
  wordString s.verb env :: s.params.map (fun w => wordString w env)

/-- Target path of a redirection, as built in `doRedirection`: when
`execute_cd` is set the raw string is joined to the saved working directory,
and any continuation segments are resolved with `get_word` and appended. -/
def redirPath (w : word_t) (execute_cd : Bool) (cwd : String)
    (env : List (String × String)) : String :=
  (if execute_cd then cwd ++ "/" ++ w.string else w.string)
    ++ get_word w.next_part env

/-- Open mode for a lone stdout redirection, per the flag tests in the
source's else-branch (with `IO_ERR_APPEND` the source leaves the descriptor
unopened and aborts via `DIE`; that abort path is outside every claim and is
mapped to the truncate mode here). -/
def outMode (flags : IoFlags) : OpenMode :=
  match flags with
  | .IO_OUT_APPEND => OpenMode.AppendCreate
  | _ => OpenMode.TruncCreate

/-- Open mode for a lone stderr redirection, per the flag tests in the
source's else-branch (same remark about the `DIE` path as for `outMode`). -/
def errMode (flags : IoFlags) : OpenMode :=
  match flags with
  | .IO_ERR_APPEND => OpenMode.AppendCreate
  | _ => OpenMode.TruncCreate

/-- The source's `doRedirection`: stdin redirection first, then either the
combined stdout+stderr branch (when both `out` and `err` are set: stdout
target append-create, stderr target truncate-create, both `dup2`-ed onto 1
and 2 and the originals closed) or the independent single-stream branches.
Freshly opened descriptors get numbers from `fdStart` upward. -/
def doRedirection (s : simple_command_t) (execute_cd : Bool) (cwd : String)
    (env : List (String × String)) (fdStart : Nat) : List Event :=
  let inPart :=
    match s.in_ with
    | none => []
    | some w =>
      [Event.openAt fdStart (redirPath w execute_cd cwd env) OpenMode.ReadOnly,
       Event.dup2Fd fdStart 0, Event.closeFd fdStart]
  let fd1 := match s.in_ with | none => fdStart | some _ => fdStart + 1
  let outErrPart :=
    match s.out, s.err with
    | some wo, some we =>
      [Event.openAt fd1 (redirPath wo execute_cd cwd env) OpenMode.AppendCreate,
       Event.openAt (fd1 + 1) (redirPath we execute_cd cwd env) OpenMode.TruncCreate,
       Event.dup2Fd fd1 1, Event.dup2Fd (fd1 + 1) 2,
       Event.closeFd fd1, Event.closeFd (fd1 + 1)]
    | some wo, none =>
      [Event.openAt fd1 (redirPath wo execute_cd cwd env) (outMode s.io_flags),
       Event.dup2Fd fd1 1, Event.closeFd fd1]
    | none, some we =>
      [Event.openAt fd1 (redirPath we execute_cd cwd env) (errMode s.io_flags),
       Event.dup2Fd fd1 2, Event.closeFd fd1]
    | none, none => []
  inPart ++ outErrPart

/-- The source's `shell_cd`: sanity check on the argument, then `chdir` to the
argument's `string` field; the attempt is recorded as a `chdirCall` event and
the working directory changes exactly when the oracle accepts the path. -/
def shell_cd (dir : Option word_t) (ss : ShellState) (O : Oracle) :
    Bool × ShellState × List Event :=
  match dir with
  | none => (false, ss, [])
  | some d =>
    if O.validDir d.string then
      (true, { ss with cwd := d.string }, [Event.chdirCall d.string true])
    else
      (false, ss, [Event.chdirCall d.string false])

/-- Behaviour of the forked child of an external command in `parse_simple`:
it saves the standard descriptors, builds argv, applies `doRedirection`, and
calls `execvp`.  The result is the child's event list together with its exit
code: the external program's code when the image loads, and `0` when `execvp`
fails, because the source then runs `exit(0)` immediately. -/
def execChild (s : simple_command_t) (env : List (String × String))
    (cwd : String) (O : Oracle) : List Event × Nat :=
  let argv := get_argv s env
  let evs := Event.saveStdFds :: doRedirection s false cwd env 6
      ++ [Event.execvpCall (argv.headD "")]
  if O.execOk argv then (evs, O.execCode argv) else (evs, 0)

/-- The source's `parse_simple`: builtin checks in source order (`cd`,
`exit`/`quit`, `false`, `true`, variable assignment), then the external
command path (fork; child runs `execChild`; parent waits for that child and
returns `false` exactly when `WEXITSTATUS` of the observed status is 1).
`exit`/`quit` run `shell_exit`, i.e. `exit(0)`, modelled as `Except.error 0`.
The `cd` arity check mirrors the source literally: it tests the first
parameter's `next_part` chain, not the presence of a second parameter. -/
def parse_simple (s : simple_command_t) (ss : ShellState) (O : Oracle) :
    Except Nat Bool × ShellState × List Event :=
  if s.verb.string == "cd" then
    match s.params with
    | [] => (.ok false, ss, [])
    | p :: _ =>
      if p.next_part != [] then (.ok false, ss, [])
      else
        let redir := doRedirection s true ss.cwd ss.env 6
        let cd := shell_cd (some p) ss O
        (.ok cd.1, cd.2.1,
         (Event.saveStdFds :: redir ++ [Event.restoreStdFds]) ++ cd.2.2)
  else if s.verb.string == "exit" || s.verb.string == "quit" then
    (.error 0, ss, [])
  else if s.verb.string == "false" then
    (.ok false, ss, [])
  else if s.verb.string == "true" then
    (.ok true, ss, [])
  else
    match s.verb.next_part with
    | _ :: rest =>
      let varvalue := get_word rest ss.env
      (.ok true, { ss with env := setEnv ss.env s.verb.string varvalue },
       [Event.setenvCall s.verb.string varvalue])
    | [] =>
      let pid := ss.nextPid
      if O.forkOk pid then
        let child := execChild s ss.env ss.cwd O
        let status := childWaitStatus O pid child.2
        let trace := [Event.forkChild pid, Event.waitFor pid status]
        if WEXITSTATUS status == 1 then
          (.ok false, { ss with nextPid := pid + 1 }, trace)
        else
          (.ok true, { ss with nextPid := pid + 1 }, trace)
      else
        (.ok false, ss, [])

/-- The source's `parse_command` on a non-null tree.  The `OP_PARALLEL` and
`OP_PIPE` cases inline the bodies of `run_in_parallel` and `run_on_pipe` (the
standalone definitions below are definitionally equal) so that the recursion
stays structural.  In `OP_SEQUENTIAL` both children are evaluated and the
returned value is the initial `result = true`, exactly as in the source; an
`Except.error` (an in-process `exit`) short-circuits everything, since the
process is gone. -/
def parse_command_tree (c : command_t) (ss : ShellState) (O : Oracle) :
    Except Nat Bool × ShellState × List Event :=
  match c with
  | .simple s => parse_simple s ss O
  | .node op c1 c2 =>
    match op with
    | .OP_SEQUENTIAL =>
      match parse_command_tree c1 ss O with
      | (.error st, ss1, t1) => (.error st, ss1, t1)
      | (.ok _, ss1, t1) =>
        match parse_command_tree c2 ss1 O with
        | (.error st, ss2, t2) => (.error st, ss2, t1 ++ t2)
        | (.ok _, ss2, t2) => (.ok true, ss2, t1 ++ t2)
    | .OP_PARALLEL =>
      let pidFirst := ss.nextPid
      if O.forkOk pidFirst then
        let ss1 : ShellState := { ss with nextPid := pidFirst + 1 }
        let child1 := parse_command_tree c1 ss1 O
        let pidSecond := ss1.nextPid
        if O.forkOk pidSecond then
          let ss2 : ShellState := { ss1 with nextPid := pidSecond + 1 }
          let child2 := parse_command_tree c2 ss2 O
          let status1 := childWaitStatus O pidFirst (exitCodeOf child1.1)
          let status2 := childWaitStatus O pidSecond (exitCodeOf child2.1)
          (.ok (WIFEXITED status1 && WIFEXITED status2), ss2,
           [Event.forkChild pidFirst, Event.forkChild pidSecond,
            Event.waitFor pidFirst status1, Event.waitFor pidSecond status2])
        else (.ok false, ss1, [Event.forkChild pidFirst])
      else (.ok false, ss, [])
    | .OP_CONDITIONAL_NZERO =>
      match parse_command_tree c1 ss O with
      | (.error st, ss1, t1) => (.error st, ss1, t1)
      | (.ok b, ss1, t1) =>
        if b then (.ok b, ss1, t1)
        else
          let r := parse_command_tree c2 ss1 O
          (r.1, r.2.1, t1 ++ r.2.2)
    | .OP_CONDITIONAL_ZERO =>
      match parse_command_tree c1 ss O with
      | (.error st, ss1, t1) => (.error st, ss1, t1)
      | (.ok b, ss1, t1) =>
        if b then
          let r := parse_command_tree c2 ss1 O
          (r.1, r.2.1, t1 ++ r.2.2)
        else (.ok b, ss1, t1)
    | .OP_PIPE =>
      let pidFirst := ss.nextPid
      if O.forkOk pidFirst then
        let ss1 : ShellState := { ss with nextPid := pidFirst + 1 }
        let child1 := parse_command_tree c1 ss1 O
        let pidSecond := ss1.nextPid
        if O.forkOk pidSecond then
          let ss2 : ShellState := { ss1 with nextPid := pidSecond + 1 }
          let child2 := parse_command_tree c2 ss2 O
          let status1 := childWaitStatus O pidFirst (exitCodeOf child1.1)
          let status2 := childWaitStatus O pidSecond (exitCodeOf child2.1)
          (.ok (WEXITSTATUS status2 != 0), ss2,
           [Event.saveStdFds, Event.pipeCreate 3 4,
            Event.forkChild pidFirst, Event.forkChild pidSecond,
            Event.closeFd 3, Event.closeFd 4,
            Event.waitFor pidFirst status1, Event.waitFor pidSecond status2,
            Event.restoreStdFds])
        else
          (.ok false, ss1,
           [Event.saveStdFds, Event.pipeCreate 3 4, Event.forkChild pidFirst])
      else (.ok false, ss, [Event.saveStdFds, Event.pipeCreate 3 4])

/-- The source's `run_in_parallel`: fork a child for each subtree (each child
evaluates its tree and exits with that result), wait for both in creation
order, and return whether both statuses report a normal exit
(`WIFEXITED(status1) && WIFEXITED(status2)`); a failed fork returns false. -/
def run_in_parallel (cmd1 cmd2 : command_t) (ss : ShellState) (O : Oracle) :
    Bool × ShellState × List Event :=
  let pidFirst := ss.nextPid
  if O.forkOk pidFirst then
    let ss1 : ShellState := { ss with nextPid := pidFirst + 1 }
    let child1 := parse_command_tree cmd1 ss1 O
    let pidSecond := ss1.nextPid
    if O.forkOk pidSecond then
      let ss2 : ShellState := { ss1 with nextPid := pidSecond + 1 }
      let child2 := parse_command_tree cmd2 ss2 O
      let status1 := childWaitStatus O pidFirst (exitCodeOf child1.1)
      let status2 := childWaitStatus O pidSecond (exitCodeOf child2.1)
      (WIFEXITED status1 && WIFEXITED status2, ss2,
       [Event.forkChild pidFirst, Event.forkChild pidSecond,
        Event.waitFor pidFirst status1, Event.waitFor pidSecond status2])
    else (false, ss1, [Event.forkChild pidFirst])
  else (false, ss, [])

/-- The source's `run_on_pipe`: save the standard descriptors, create the
pipe, fork child A (stdout onto the write end, evaluate `cmd1`, exit with the
result) and child B (stdin onto the read end, evaluate `cmd2`, exit with the
result), close both pipe ends in the parent, wait for both children in
creation order, restore the descriptors, and return `WEXITSTATUS(status2)`
coerced to bool; a failed fork returns false. -/
def run_on_pipe (cmd1 cmd2 : command_t) (ss : ShellState) (O : Oracle) :
    Bool × ShellState × List Event :=
  let pidFirst := ss.nextPid
  if O.forkOk pidFirst then
    let ss1 : ShellState := { ss with nextPid := pidFirst + 1 }
    let child1 := parse_command_tree cmd1 ss1 O
    let pidSecond := ss1.nextPid
    if O.forkOk pidSecond then
      let ss2 : ShellState := { ss1 with nextPid := pidSecond + 1 }
      let child2 := parse_command_tree cmd2 ss2 O
      let status1 := childWaitStatus O pidFirst (exitCodeOf child1.1)
      let status2 := childWaitStatus O pidSecond (exitCodeOf child2.1)
      (WEXITSTATUS status2 != 0, ss2,
       [Event.saveStdFds, Event.pipeCreate 3 4,
        Event.forkChild pidFirst, Event.forkChild pidSecond,
        Event.closeFd 3, Event.closeFd 4,
        Event.waitFor pidFirst status1, Event.waitFor pidSecond status2,
        Event.restoreStdFds])
    else
      (false, ss1,
       [Event.saveStdFds, Event.pipeCreate 3 4, Event.forkChild pidFirst])
  else (false, ss, [Event.saveStdFds, Event.pipeCreate 3 4])

/-- The source's `parse_command` entry point: the `NULL` sanity check returns
false immediately; otherwise the tree is evaluated. -/
def parse_command (c : Option command_t) (ss : ShellState) (O : Oracle) :
    Except Nat Bool × ShellState × List Event :=
  match c with
  | none => (.ok false, ss, [])
  | some t => parse_command_tree t ss O

/-- A redirection-free leaf simple command with the given verb. -/
def mkLeaf (v : String) : simple_command_t :=
  ⟨⟨v, false, []⟩, [], none, none, none, IoFlags.IO_REGULAR⟩

/-- Leaf running the `false` builtin. -/
def falseLeaf : command_t := .simple (mkLeaf "false")

/-- Leaf running the `true` builtin. -/
def trueLeaf : command_t := .simple (mkLeaf "true")

/-- Leaf running the `exit` builtin. -/
def exitLeaf : command_t := .simple (mkLeaf "exit")

/-- Leaf running an external command. -/
def extLeaf : command_t := .simple (mkLeaf "somecmd")

/-- A concrete starting state. -/
def sigma0 : ShellState := ⟨[], "/", 100⟩

/-- Oracle on which every OS operation succeeds and external commands exit
with code 0. -/
def oracleAllOk : Oracle :=
  ⟨fun _ => true, fun _ => true, fun _ => 0, fun _ => none, fun _ => true⟩

/-- Oracle on which external commands exit with code 2. -/
def oracleCode2 : Oracle :=
  ⟨fun _ => true, fun _ => true, fun _ => 2, fun _ => none, fun _ => true⟩

/-- Oracle on which `execvp` cannot locate any program image. -/
def oracleNoExec : Oracle :=
  ⟨fun _ => true, fun _ => false, fun _ => 0, fun _ => none, fun _ => true⟩

/-- Fixture for C4: `cd` invoked with two single-segment parameters, the
first naming a valid directory. -/
def cdTwoParams : simple_command_t :=
  ⟨⟨"cd", false, []⟩, [⟨"d1", false, []⟩, ⟨"d2", false, []⟩],
   none, none, none, IoFlags.IO_REGULAR⟩

/-- Fixture for C9: a simple command with both `out` and `err` targets set. -/
def scmd9 : simple_command_t :=
  ⟨⟨"prog", false, []⟩, [], none, some ⟨"o.txt", false, []⟩,
   some ⟨"e.txt", false, []⟩, IoFlags.IO_REGULAR⟩

/-- A child of `childWaitStatus` terminated by the ordinary exit path exactly
when the oracle delivered no fatal signal. -/
theorem WIFEXITED_childWaitStatus (O : Oracle) (pid code : Nat) :
    WIFEXITED (childWaitStatus O pid code) = true ↔ O.killedBy pid = none := by
  unfold childWaitStatus
  cases h : O.killedBy pid <;>
    simp [WIFEXITED, mkExitStatus, mkSignaled] <;> omega

/-- C1: on `false ; false` the SEQUENTIAL node evaluates to success even
though `cmd2` evaluates to failure — the interpreter returns the initial
`result = true` instead of `cmd2`'s outcome (the source marks the returned
value with a TODO asking for the actual exit code). -/
theorem sequential_outcome_not_cmd2 :
    parse_command (some (.node .OP_SEQUENTIAL falseLeaf falseLeaf)) sigma0 oracleAllOk
      = (Except.ok true, sigma0, [])
    ∧ parse_command (some falseLeaf) sigma0 oracleAllOk
      = (Except.ok false, sigma0, []) :=
  ⟨rfl, rfl⟩

/-- C2 counterexample: an external command that exits with code 2 — a nonzero
code — is reported as success, because the parent only maps `WEXITSTATUS == 1`
to failure; the claim demands failure for every nonzero exit code. -/
theorem external_exit_code_two_reported_success :
    parse_command (some extLeaf) sigma0 oracleCode2
      = (Except.ok true, ⟨[], "/", 101⟩,
         [Event.forkChild 100, Event.waitFor 100 512])
    ∧ WEXITSTATUS 512 = 2 :=
  ⟨rfl, rfl⟩

/-- C3: when `execvp` cannot load the image the child terminates immediately,
but with exit code 0 (`exit(0)`), so the parent observes success — not the
failure the claim (and the spec's error taxonomy) requires. -/
theorem exec_failure_child_exits_zero_parent_sees_success :
    (execChild (mkLeaf "nosuch") [] "/" oracleNoExec).2 = 0
    ∧ parse_command (some (.simple (mkLeaf "nosuch"))) sigma0 oracleNoExec
        = (Except.ok true, ⟨[], "/", 101⟩,
           [Event.forkChild 100, Event.waitFor 100 0]) :=
  ⟨rfl, rfl⟩

/-- C4: `cd` with two parameters passes the source's arity check (which tests
the first parameter's `next_part` chain instead of the presence of a second
parameter), so the directory change is attempted and succeeds — the claim
requires failure with no directory change. -/
theorem cd_two_params_changes_directory :
    cdTwoParams.params.length = 2
    ∧ parse_command (some (.simple cdTwoParams)) sigma0 oracleAllOk
        = (Except.ok true, ⟨[], "d1", 100⟩,
           [Event.saveStdFds, Event.restoreStdFds, Event.chdirCall "d1" true]) :=
  ⟨rfl, rfl⟩

/-- C7 counterexample: in a PIPE node whose `cmd2` is the `true` builtin,
child B exits with code 1, and the node's outcome is success — the source
returns `WEXITSTATUS(status2)` coerced to bool, i.e. nonzero maps to success,
the opposite of the claim's stated convention (0 → success, nonzero →
failure). -/
theorem pipe_outcome_uses_nonzero_as_success :
    parse_command (some (.node .OP_PIPE falseLeaf trueLeaf)) sigma0 oracleAllOk
      = (Except.ok true, ⟨[], "/", 102⟩,
         [Event.saveStdFds, Event.pipeCreate 3 4,
          Event.forkChild 100, Event.forkChild 101,
          Event.closeFd 3, Event.closeFd 4,
          Event.waitFor 100 0, Event.waitFor 101 256,
          Event.restoreStdFds])
    ∧ WEXITSTATUS 256 = 1 :=
  ⟨rfl, rfl⟩

/-- C8: the `exit` and `quit` builtins terminate the whole process
immediately — nothing after them in the same process runs, as the SEQUENTIAL
conjunct shows — but with exit status 0, the ordinary success code, not a
designated `SHELL_EXIT` value (the source's `return SHELL_EXIT` is dead code
behind `exit(0)`, marked TODO). -/
theorem shell_exit_terminates_with_zero (ss : ShellState) (O : Oracle)
    (c2 : command_t) :
    parse_command_tree exitLeaf ss O = (Except.error 0, ss, [])
    ∧ parse_command_tree (.simple (mkLeaf "quit")) ss O = (Except.error 0, ss, [])
    ∧ parse_command_tree (.node .OP_SEQUENTIAL exitLeaf c2) ss O
        = (Except.error 0, ss, []) :=
  ⟨rfl, rfl, rfl⟩

/-- C10: the tree evaluator called on a NULL command tree returns failure at
once, with the state untouched and an empty trace — no fork, no redirection,
no directory or environment change. -/
theorem parse_command_null (ss : ShellState) (O : Oracle) :
    parse_command none ss O = (Except.ok false, ss, []) :=
  rfl

/-- C5: for every COND_NONZERO node, cmd2 is evaluated — its trace appended
and its result adopted — exactly when cmd1's outcome is failure, and
otherwise the node returns cmd1's successful outcome with cmd1's trace alone;
for every COND_ZERO node the symmetric property holds with success. -/
theorem conditional_second_child_iff (c1 c2 : command_t) (ss : ShellState)
    (O : Oracle) (b : Bool) (ss1 : ShellState) (t1 : List Event)
    (h : parse_command_tree c1 ss O = (Except.ok b, ss1, t1)) :
    parse_command_tree (.node .OP_CONDITIONAL_NZERO c1 c2) ss O
      = (if b then (Except.ok b, ss1, t1)
         else ((parse_command_tree c2 ss1 O).1,
               (parse_command_tree c2 ss1 O).2.1,
               t1 ++ (parse_command_tree c2 ss1 O).2.2))
    ∧ parse_command_tree (.node .OP_CONDITIONAL_ZERO c1 c2) ss O
      = (if b then ((parse_command_tree c2 ss1 O).1,
                    (parse_command_tree c2 ss1 O).2.1,
                    t1 ++ (parse_command_tree c2 ss1 O).2.2)
         else (Except.ok b, ss1, t1)) := by
  cases b <;> constructor <;> simp [parse_command_tree, h]

/-- Witness for C5 at the spec's scenario: `false || true` evaluates `true`
and succeeds, `false && true` skips `cmd2` and fails. -/
theorem conditional_second_child_iff_witness :
    parse_command_tree (.node .OP_CONDITIONAL_NZERO falseLeaf trueLeaf) sigma0 oracleAllOk
      = (Except.ok true, sigma0, [])
    ∧ parse_command_tree (.node .OP_CONDITIONAL_ZERO falseLeaf trueLeaf) sigma0 oracleAllOk
      = (Except.ok false, sigma0, []) := by
  have h := conditional_second_child_iff falseLeaf trueLeaf sigma0 oracleAllOk
    false sigma0 [] rfl
  simpa using h

/-- C6: for every PARALLEL node whose two forks succeed, the parent forks a
child for cmd1 and then one for cmd2, waits for both in creation order, and
the outcome is `WIFEXITED status1 && WIFEXITED status2` — success exactly when
neither child was killed by a signal, independent of the children's own
success/failure results (a normal exit with any code keeps `WIFEXITED`
true). -/
theorem run_in_parallel_forks_waits_normal_exit (c1 c2 : command_t)
    (ss : ShellState) (O : Oracle)
    (h1 : O.forkOk ss.nextPid = true) (h2 : O.forkOk (ss.nextPid + 1) = true) :
    ∃ s1 s2,
      s1 = childWaitStatus O ss.nextPid
            (exitCodeOf (parse_command_tree c1 { ss with nextPid := ss.nextPid + 1 } O).1)
      ∧ s2 = childWaitStatus O (ss.nextPid + 1)
            (exitCodeOf (parse_command_tree c2 { ss with nextPid := ss.nextPid + 2 } O).1)
      ∧ run_in_parallel c1 c2 ss O
          = (WIFEXITED s1 && WIFEXITED s2, { ss with nextPid := ss.nextPid + 2 },
             [Event.forkChild ss.nextPid, Event.forkChild (ss.nextPid + 1),
              Event.waitFor ss.nextPid s1, Event.waitFor (ss.nextPid + 1) s2])
      ∧ ((WIFEXITED s1 && WIFEXITED s2) = true
          ↔ O.killedBy ss.nextPid = none ∧ O.killedBy (ss.nextPid + 1) = none) := by
  refine ⟨_, _, rfl, rfl, ?_, ?_⟩
  · simp [run_in_parallel, h1, h2]
  · rw [Bool.and_eq_true, WIFEXITED_childWaitStatus, WIFEXITED_childWaitStatus]

/-- Witness for C6: a parallel `false`/`true` pair — both children exit
normally with different outcomes (0 and 1), and the node succeeds. -/
theorem run_in_parallel_forks_waits_normal_exit_witness :
    run_in_parallel falseLeaf trueLeaf sigma0 oracleAllOk
      = (true, ⟨[], "/", 102⟩,
         [Event.forkChild 100, Event.forkChild 101,
          Event.waitFor 100 0, Event.waitFor 101 256]) := by
  obtain ⟨s1, s2, hs1, hs2, heq, hiff⟩ :=
    run_in_parallel_forks_waits_normal_exit falseLeaf trueLeaf sigma0 oracleAllOk rfl rfl
  subst hs1
  subst hs2
  exact heq

/-- C7 amended: for every PIPE node whose two forks succeed, the parent
closes both pipe ends immediately after forking the two children and before
waiting, waits for both in creation order, and the outcome is
`WEXITSTATUS status2` coerced to bool — nonzero means success — so that child
A's status is never consulted, and whenever child B is not killed by a signal
the node's outcome equals cmd2's evaluated outcome (B exits with that boolean
as its code). -/
theorem run_on_pipe_close_wait_outcome (c1 c2 : command_t)
    (ss : ShellState) (O : Oracle)
    (h1 : O.forkOk ss.nextPid = true) (h2 : O.forkOk (ss.nextPid + 1) = true) :
    ∃ s1 s2,
      s1 = childWaitStatus O ss.nextPid
            (exitCodeOf (parse_command_tree c1 { ss with nextPid := ss.nextPid + 1 } O).1)
      ∧ s2 = childWaitStatus O (ss.nextPid + 1)
            (exitCodeOf (parse_command_tree c2 { ss with nextPid := ss.nextPid + 2 } O).1)
      ∧ run_on_pipe c1 c2 ss O
          = ((WEXITSTATUS s2 != 0), { ss with nextPid := ss.nextPid + 2 },
             [Event.saveStdFds, Event.pipeCreate 3 4,
              Event.forkChild ss.nextPid, Event.forkChild (ss.nextPid + 1),
              Event.closeFd 3, Event.closeFd 4,
              Event.waitFor ss.nextPid s1, Event.waitFor (ss.nextPid + 1) s2,
              Event.restoreStdFds])
      ∧ (∀ b : Bool,
          (parse_command_tree c2 { ss with nextPid := ss.nextPid + 2 } O).1 = Except.ok b →
          O.killedBy (ss.nextPid + 1) = none →
          (WEXITSTATUS s2 != 0) = b) := by
  refine ⟨_, _, rfl, rfl, ?_, ?_⟩
  · simp [run_on_pipe, h1, h2]
  · intro b hb hk
    rw [hb]
    cases b <;> simp [childWaitStatus, hk, exitCodeOf, mkExitStatus, WEXITSTATUS]

/-- Witness for C7's amended statement: `false | true` — child B exits with
code 1 and the node succeeds, matching cmd2's outcome. -/
theorem run_on_pipe_close_wait_outcome_witness :
    run_on_pipe falseLeaf trueLeaf sigma0 oracleAllOk
      = (true, ⟨[], "/", 102⟩,
         [Event.saveStdFds, Event.pipeCreate 3 4,
          Event.forkChild 100, Event.forkChild 101,
          Event.closeFd 3, Event.closeFd 4,
          Event.waitFor 100 0, Event.waitFor 101 256,
          Event.restoreStdFds]) := by
  obtain ⟨s1, s2, hs1, hs2, heq, himpl⟩ :=
    run_on_pipe_close_wait_outcome falseLeaf trueLeaf sigma0 oracleAllOk rfl rfl
  subst hs1
  subst hs2
  exact heq

/-- C2 amended: for every leaf simple command that is not a builtin (and no
variable assignment), the parent forks exactly one child, waits for exactly
that child, and the Outcome is failure precisely when `WEXITSTATUS` of the
observed status equals 1 — so exit code 0 yields success, exit code 1 yields
failure, every other exit code yields success, and signal termination (whose
`WEXITSTATUS` is 0) yields success. -/
theorem parse_simple_fork_wait_translation (s : simple_command_t)
    (ss : ShellState) (O : Oracle)
    (hcd : s.verb.string ≠ "cd") (hexit : s.verb.string ≠ "exit")
    (hquit : s.verb.string ≠ "quit") (hfalse : s.verb.string ≠ "false")
    (htrue : s.verb.string ≠ "true") (hnp : s.verb.next_part = [])
    (hfork : O.forkOk ss.nextPid = true) :
    ∃ status,
      status = childWaitStatus O ss.nextPid (execChild s ss.env ss.cwd O).2
      ∧ parse_simple s ss O
          = (Except.ok (!(WEXITSTATUS status == 1)),
             { ss with nextPid := ss.nextPid + 1 },
             [Event.forkChild ss.nextPid, Event.waitFor ss.nextPid status])
      ∧ (WEXITSTATUS (mkExitStatus 0) == 1) = false
      ∧ (WEXITSTATUS (mkExitStatus 1) == 1) = true
      ∧ (∀ code, 2 ≤ code → code ≤ 255 → (WEXITSTATUS (mkExitStatus code) == 1) = false)
      ∧ (∀ sig, (WEXITSTATUS (mkSignaled sig) == 1) = false) := by
  refine ⟨_, rfl, ?_, by decide, by decide, ?_, ?_⟩
  · cases hw : WEXITSTATUS (childWaitStatus O ss.nextPid (execChild s ss.env ss.cwd O).2) == 1 <;>
      simp [parse_simple, hcd, hexit, hquit, hfalse, htrue, hnp, hfork, hw]
  · intro code h2 h255
    simp [mkExitStatus, WEXITSTATUS]
    omega
  · intro sig
    simp [mkSignaled, WEXITSTATUS]
    omega

/-- Witness for C2's amended statement: an external command exiting 0 is
reported as success after one fork and one wait. -/
theorem parse_simple_fork_wait_translation_witness :
    parse_simple (mkLeaf "somecmd") sigma0 oracleAllOk
      = (Except.ok true, ⟨[], "/", 101⟩,
         [Event.forkChild 100, Event.waitFor 100 0]) := by
  obtain ⟨status, hst, heq, hrest⟩ :=
    parse_simple_fork_wait_translation (mkLeaf "somecmd") sigma0 oracleAllOk
      (by decide) (by decide) (by decide) (by decide) (by decide) rfl rfl
  subst hst
  exact heq

/-- C9: for every simple command with both `out` and `err` targets set, the
stdout target is opened append-create and the stderr target truncate-create,
each opened descriptor is then duplicated onto its standard descriptor (1
resp. 2) and closed; only stdin handling may precede these events. -/
theorem doRedirection_combined_modes (s : simple_command_t) (execute_cd : Bool)
    (cwd : String) (env : List (String × String)) (fdStart : Nat)
    (wo we : word_t) (ho : s.out = some wo) (he : s.err = some we) :
    ∃ pre f,
      doRedirection s execute_cd cwd env fdStart
        = pre ++
          [Event.openAt f (redirPath wo execute_cd cwd env) OpenMode.AppendCreate,
           Event.openAt (f + 1) (redirPath we execute_cd cwd env) OpenMode.TruncCreate,
           Event.dup2Fd f 1, Event.dup2Fd (f + 1) 2,
           Event.closeFd f, Event.closeFd (f + 1)]
      ∧ (pre = [] ∨ ∃ g path, pre = [Event.openAt g path OpenMode.ReadOnly,
                                     Event.dup2Fd g 0, Event.closeFd g]) := by
  cases hin : s.in_ with
  | none =>
    exact ⟨[], fdStart, by simp [doRedirection, hin, ho, he], Or.inl rfl⟩
  | some w =>
    exact ⟨[Event.openAt fdStart (redirPath w execute_cd cwd env) OpenMode.ReadOnly,
            Event.dup2Fd fdStart 0, Event.closeFd fdStart], fdStart + 1,
           by simp [doRedirection, hin, ho, he],
           Or.inr ⟨fdStart, redirPath w execute_cd cwd env, rfl⟩⟩

/-- Witness for C9 on a concrete command with both targets set. -/
theorem doRedirection_combined_modes_witness :
    ∃ pre f,
      doRedirection scmd9 false "/" [] 6
        = pre ++
          [Event.openAt f (redirPath ⟨"o.txt", false, []⟩ false "/" []) OpenMode.AppendCreate,
           Event.openAt (f + 1) (redirPath ⟨"e.txt", false, []⟩ false "/" []) OpenMode.TruncCreate,
           Event.dup2Fd f 1, Event.dup2Fd (f + 1) 2,
           Event.closeFd f, Event.closeFd (f + 1)]
      ∧ (pre = [] ∨ ∃ g path, pre = [Event.openAt g path OpenMode.ReadOnly,
                                     Event.dup2Fd g 0, Event.closeFd g]) :=
  doRedirection_combined_modes scmd9 false "/" [] 6
    ⟨"o.txt", false, []⟩ ⟨"e.txt", false, []⟩ rfl rfl
